import Mathlib

/-!
Verification of the Segi9 Zabbix agent 2 HTTP plugin (plugin.go / main.go).

The development shallowly embeds the plugin's pure logic:
  * `Configure` / `Validate` — the Configurator interface (defaulting,
    global-timeout fallback, clamping, range validation),
  * `Export` — parameter handling for the `segi9.http` item key,
  * `doRequestPrepare` / `doRequest` — the core HTTP request logic, split at
    the network boundary: preparation is pure, the network itself is an
    oracle `PreparedRequest → NetworkResult` supplied as a parameter, so
    "no network call is made" is expressed as independence from the oracle.

External library calls (`conf.Unmarshal`, URL parsing in `http.NewRequest`,
`SetBasicAuth`, the transport) are modelled as parameters or as recorded
effects on the prepared request, never re-implemented.
-/

namespace Segi9

/-- characters removed by Go strings.TrimSpace, restricted to the ASCII
whitespace characters (space, tab, newline, carriage return, vertical tab,
form feed); the exotic Unicode space classes are out of scope. -/
def isSpaceGo (c : Char) : Bool :=
  c = ' ' || c = '\t' || c = '\n' || c = '\r' || c = Char.ofNat 11 || c = Char.ofNat 12

/-- drop leading characters satisfying `isSpaceGo`. -/
def dropSpaces : List Char → List Char
  | [] => []
  | c :: cs => if isSpaceGo c then dropSpaces cs else c :: cs

/-- model of Go strings.TrimSpace: remove leading and trailing whitespace. -/
def trimSpaceGo (s : String) : String :=
  String.mk ((dropSpaces (dropSpaces s.data).reverse).reverse)

/-- ASCII lower-casing of one character, as Go strings.ToLower acts on the
ASCII range (the only range the auth-mode keywords use). -/
def lowerChar (c : Char) : Char :=
  if 'A' ≤ c ∧ c ≤ 'Z' then Char.ofNat (c.toNat + 32) else c

/-- model of Go strings.ToLower on ASCII strings. -/
def toLowerGo (s : String) : String :=
  String.mk (s.data.map lowerChar)

/-- model of the Go fmt %q verb applied to a string without
escape-requiring characters: wrap in double quotes. -/
def goQuote (s : String) : String := "\"" ++ s ++ "\""

/-- Config mirrors the plugin Config struct: Timeout (Go int, seconds) and
SkipVerify. -/
structure Config where
  Timeout : Int
  SkipVerify : Bool
deriving DecidableEq

/-- built-in defaults, as written in Configure and Validate:
Timeout 10, SkipVerify false. -/
def defaultConfig : Config := { Timeout := 10, SkipVerify := false }

/-- global-timeout fallback step of Configure: if the plugin timeout ended
up at zero and the host supplied a positive global timeout, use the global
one (`p.config.Timeout == 0 && global != nil && global.Timeout > 0`). -/
def applyGlobal (c : Config) (globalTimeout : Option Int) : Config :=
  match globalTimeout with
  | some gt => if c.Timeout = 0 ∧ 0 < gt then { c with Timeout := gt } else c
  | none => c

/-- lower half of the hard clamp in Configure
(`if p.config.Timeout < 1 { p.config.Timeout = 1 }`). -/
def clampMin1 (c : Config) : Config :=
  if c.Timeout < 1 then { c with Timeout := 1 } else c

/-- upper half of the hard clamp in Configure
(`if p.config.Timeout > 30 { p.config.Timeout = 30 }`). -/
def clampMax30 (c : Config) : Config :=
  if 30 < c.Timeout then { c with Timeout := 30 } else c

/-- Configure: reset to the built-in defaults, apply the parsed options if
conf.Unmarshal produced any (`parsed = none` covers both nil options and an
unmarshal error, in which case the code keeps the defaults), then the
global-timeout fallback, then the hard clamp into [1, 30]. The returned
Config is the value stored under the write lock, which a later read
snapshot observes. -/
def Configure (parsed : Option Config) (globalTimeout : Option Int) : Config :=
  clampMax30 (clampMin1 (applyGlobal (parsed.getD defaultConfig) globalTimeout))

/-- error text of the Validate range rejection
(`"Plugins.Segi9.Timeout: value %d is out of the allowed range [1..30]"`). -/
def timeoutRangeErr (t : Int) : String :=
  "Plugins.Segi9.Timeout: value " ++ toString t ++ " is out of the allowed range [1..30]"

/-- Validate: parse the candidate options (an unmarshal failure is a
wrapped rejection; nil options parse to the defaults), then reject iff the
timeout lies outside [1, 30]. -/
def Validate (parsed : Except String Config) : Except String Unit :=
  match parsed with
  | .error e => .error ("failed to parse plugin configuration: " ++ e)
  | .ok cfg =>
      if cfg.Timeout < 1 ∨ 30 < cfg.Timeout then .error (timeoutRangeErr cfg.Timeout)
      else .ok ()

/-- a header map built by req.Header.Set calls: Set replaces any previous
value stored under the same key. -/
def headerSet (hs : List (String × String)) (k v : String) : List (String × String) :=
  hs.filter (fun p => p.1 != k) ++ [(k, v)]

/-- read a header value (first entry with the key, as Header.Get does). -/
def headerGet (hs : List (String × String)) (k : String) : Option String :=
  (hs.find? (fun p => p.1 == k)).map Prod.snd

/-- the outgoing request as assembled by doRequest before client.Do:
method and url of http.NewRequest, the headers set via Header.Set,
the SetBasicAuth credentials (a Go stdlib call, recorded rather than
re-encoded), and the client's Timeout (seconds) and TLS
InsecureSkipVerify setting. -/
structure PreparedRequest where
  method : String
  url : String
  headers : List (String × String)
  basicAuth : Option (String × String)
  timeoutSeconds : Int
  skipVerify : Bool
deriving DecidableEq

/-- timeout resolution in doRequest: `timeout := Duration(Timeout) * Second;
if timeout <= 0 { timeout = 10 * Second }`, in whole seconds (Duration
overflow is out of range for any storable configuration). -/
def resolveTimeout (t : Int) : Int :=
  if t ≤ 0 then 10 else t

/-- error text of the bearer branch when no token was supplied. -/
def bearerTokenErr : String :=
  "auth_type \x27bearer\x27 requires a token in the third parameter (user)"

/-- error text of the default branch of the auth switch
(`"unsupported auth_type %q; valid values are: none, basic, bearer"`). -/
def unsupportedAuthErr (mode : String) : String :=
  "unsupported auth_type " ++ goQuote mode ++ "; valid values are: none, basic, bearer"

/-- error text when http.NewRequest rejects the url; the wrapped stdlib
parse error text is external and omitted from the model. -/
def buildRequestErr (url : String) : String :=
  "failed to build HTTP request for " ++ goQuote url

/-- doRequest up to (excluding) client.Do: build the client from the config
snapshot, build the GET request (`urlOk` stands for the external
http.NewRequest url parse succeeding), set the User-Agent and Accept
headers, and run the auth switch on strings.ToLower(authType). -/
def doRequestPrepare (cfg : Config) (urlOk : Bool) (url authType user pass : String) :
    Except String PreparedRequest :=
  let timeout := resolveTimeout cfg.Timeout
  if urlOk then
    let hs := headerSet (headerSet [] "User-Agent" "Zabbix-Plugin-Segi9/1.0") "Accept" "*/*"
    let m := toLowerGo authType
    if m = "basic" then
      .ok { method := "GET", url := url, headers := hs, basicAuth := some (user, pass),
            timeoutSeconds := timeout, skipVerify := cfg.SkipVerify }
    else if m = "bearer" then
      if user = "" then .error bearerTokenErr
      else
        .ok { method := "GET", url := url,
              headers := headerSet hs "Authorization" ("Bearer " ++ user),
              basicAuth := none, timeoutSeconds := timeout, skipVerify := cfg.SkipVerify }
    else if m = "none" ∨ m = "" then
      .ok { method := "GET", url := url, headers := hs, basicAuth := none,
            timeoutSeconds := timeout, skipVerify := cfg.SkipVerify }
    else
      .error (unsupportedAuthErr authType)
  else
    .error (buildRequestErr url)

/-- decidable equality for outcomes, so that concrete runs can be settled
by decide. -/
instance {ε α : Type} [DecidableEq ε] [DecidableEq α] : DecidableEq (Except ε α) := fun a b =>
  match a, b with
  | .ok x, .ok y =>
      if h : x = y then .isTrue (by rw [h]) else .isFalse (by intro hc; cases hc; exact h rfl)
  | .error x, .error y =>
      if h : x = y then .isTrue (by rw [h]) else .isFalse (by intro hc; cases hc; exact h rfl)
  | .ok _, .error _ => .isFalse (by intro hc; cases hc)
  | .error _, .ok _ => .isFalse (by intro hc; cases hc)

/-- what the network (client.Do plus io.ReadAll on the body) can yield:
a transport error, or a response with a status code and a body-read
outcome. -/
inductive NetworkResult where
  | transportError (msg : String)
  | response (statusCode : Nat) (bodyRead : Except String String)
deriving DecidableEq

/-- error text wrapping a transport failure
(`"HTTP request to %q failed: %w"`). -/
def requestFailedErr (url msg : String) : String :=
  "HTTP request to " ++ goQuote url ++ " failed: " ++ msg

/-- error text wrapping a body-read failure
(`"failed to read response body from %q: %w"`). -/
def readBodyErr (url msg : String) : String :=
  "failed to read response body from " ++ goQuote url ++ ": " ++ msg

/-- full doRequest: prepare, then hand the prepared request to the network
oracle exactly when preparation succeeded; on a response, return the raw
body as the success value whatever the status code. -/
def doRequest (cfg : Config) (urlOk : Bool) (net : PreparedRequest → NetworkResult)
    (url authType user pass : String) : Except String String :=
  match doRequestPrepare cfg urlOk url authType user pass with
  | .error e => .error e
  | .ok req =>
      match net req with
      | .transportError m => .error (requestFailedErr url m)
      | .response _ bodyRead =>
          match bodyRead with
          | .error m => .error (readBodyErr url m)
          | .ok body => .ok body

/-- the only served item key. -/
def exportKey : String := "segi9.http"

/-- error text of the key guard (`errs.Errorf("unsupported key: %q", key)`). -/
def unsupportedKeyErr (key : String) : String :=
  "unsupported key: " ++ goQuote key

/-- error text of the mandatory-url guard. -/
def urlRequiredErr : String :=
  "segi9.http: the first parameter (url) is required and cannot be empty"

/-- Export: refuse any key other than segi9.http, require a non-empty (after
trimming) url in params[0], default the auth type to none when params[1] is
absent or trims to empty (otherwise use it trimmed), pass params[2] and
params[3] through untrimmed as user and pass, and run doRequest. -/
def Export (cfg : Config) (urlOk : Bool) (net : PreparedRequest → NetworkResult)
    (key : String) (params : List String) : Except String String :=
  if key ≠ exportKey then .error (unsupportedKeyErr key)
  else if params.length = 0 ∨ trimSpaceGo (params.getD 0 "") = "" then .error urlRequiredErr
  else
    let url := trimSpaceGo (params.getD 0 "")
    let authType :=
      if 1 < params.length ∧ trimSpaceGo (params.getD 1 "") ≠ "" then
        trimSpaceGo (params.getD 1 "")
      else "none"
    doRequest cfg urlOk net url authType (params.getD 2 "") (params.getD 3 "")

/-- Boolean success test on an outcome. -/
def isSuccess {α : Type} : Except String α → Bool
  | .ok _ => true
  | .error _ => false

/-- a network that answers 200 with body "ok". -/
def netOk : PreparedRequest → NetworkResult := fun _ => .response 200 (.ok "ok")

/-- a network on which every connection fails. -/
def netDown : PreparedRequest → NetworkResult := fun _ => .transportError "connection refused"

/-- the resolved timeout is always positive. -/
theorem resolveTimeout_pos (t : Int) : 0 < resolveTimeout t := by
  unfold resolveTimeout
  split_ifs <;> omega

/-- every successfully prepared request is a GET on the requested url with
the fixed User-Agent and Accept headers, the resolved timeout and the
snapshot TLS flag. -/
theorem prepare_ok_fields (cfg : Config) (urlOk : Bool) (url mode user pass : String)
    (r : PreparedRequest) (hp : doRequestPrepare cfg urlOk url mode user pass = .ok r) :
    r.method = "GET" ∧ r.url = url ∧
      headerGet r.headers "User-Agent" = some "Zabbix-Plugin-Segi9/1.0" ∧
      headerGet r.headers "Accept" = some "*/*" ∧
      r.timeoutSeconds = resolveTimeout cfg.Timeout ∧ r.skipVerify = cfg.SkipVerify := by
  simp only [doRequestPrepare] at hp
  split_ifs at hp
  all_goals
    first
      | exact Except.noConfusion hp
      | (injection hp with hr; subst hr; exact ⟨rfl, rfl, rfl, rfl, rfl, rfl⟩)

/-- doRequest never consults the network once preparation has failed, and
returns the preparation error itself. -/
theorem doRequest_of_prepare_error (cfg : Config) (urlOk : Bool) (url mode user pass e : String)
    (hp : doRequestPrepare cfg urlOk url mode user pass = .error e) :
    ∀ net, doRequest cfg urlOk net url mode user pass = .error e := by
  intro net
  simp [doRequest, hp]

/-- the auth switch hits its default branch for any mode whose lower-cased
form is none of the four recognized cases, so preparation fails with the
unsupported-auth error (or the request-build error when the url does not
parse). -/
theorem doRequest_reject_mode (cfg : Config) (urlOk : Bool) (url mode user pass : String)
    (h1 : toLowerGo mode ≠ "basic") (h2 : toLowerGo mode ≠ "bearer")
    (h3 : toLowerGo mode ≠ "none") (h4 : toLowerGo mode ≠ "") :
    doRequestPrepare cfg urlOk url mode user pass =
      if urlOk then .error (unsupportedAuthErr mode) else .error (buildRequestErr url) := by
  simp only [doRequestPrepare]
  rw [if_neg h1, if_neg h2,
    if_neg (show ¬(toLowerGo mode = "none" ∨ toLowerGo mode = "") from fun hc => hc.elim h3 h4)]

/-- Validate computed: unfolding the match and the projection. -/
theorem validate_ok_eq (T : Int) (sv : Bool) :
    Validate (.ok { Timeout := T, SkipVerify := sv }) =
      if T < 1 ∨ 30 < T then .error (timeoutRangeErr T) else .ok () := rfl

/-- C1: every candidate Configuration committed via Configure is stored with
its timeout clamped into [1, 30] whatever value was requested; in particular
a candidate with timeout 45 is stored with timeout 30, never 45. -/
theorem c1_configure_clamps_timeout (parsed : Option Config) (g : Option Int) :
    (1 ≤ (Configure parsed g).Timeout ∧ (Configure parsed g).Timeout ≤ 30) ∧
      ∀ sv : Bool, (Configure (some { Timeout := 45, SkipVerify := sv }) g).Timeout = 30 := by
  constructor
  · unfold Configure clampMax30 clampMin1
    split_ifs <;> simp_all
  · intro sv
    unfold Configure clampMax30 clampMin1 applyGlobal
    cases g with
    | none => rfl
    | some gt => simp

/-- C3: Validate accepts a parsed candidate iff its timeout lies in [1, 30],
and rejects an out-of-range timeout with an error message naming the
offending value rather than correcting it. -/
theorem c3_validate_iff_range (T : Int) (sv : Bool) :
    (Validate (.ok { Timeout := T, SkipVerify := sv }) = .ok () ↔ 1 ≤ T ∧ T ≤ 30) ∧
      (T < 1 ∨ 30 < T →
        Validate (.ok { Timeout := T, SkipVerify := sv }) = .error (timeoutRangeErr T)) := by
  rw [validate_ok_eq]
  constructor
  · constructor
    · intro h
      by_contra hc
      have hr : T < 1 ∨ 30 < T := by omega
      rw [if_pos hr] at h
      exact absurd h (by simp)
    · intro h
      have hr : ¬(T < 1 ∨ 30 < T) := by omega
      rw [if_neg hr]
  · intro hr
    rw [if_pos hr]

/-- C3 witness: at concrete inputs, timeout 10 is accepted and timeout 45 is
rejected with the range message. -/
theorem c3_validate_iff_range_witness :
    Validate (.ok { Timeout := 10, SkipVerify := false }) = .ok () ∧
      Validate (.ok { Timeout := 45, SkipVerify := false }) = .error (timeoutRangeErr 45) := by
  constructor
  · exact (c3_validate_iff_range 10 false).1.mpr (by decide)
  · exact (c3_validate_iff_range 45 false).2 (by decide)

/-- C7: whenever a request is prepared, a non-positive snapshot timeout is
replaced by the built-in default of 10 seconds before the client exists, a
positive one is kept, and the client timeout is always positive. -/
theorem c7_nonpositive_timeout_defaults (cfg : Config) (urlOk : Bool)
    (url mode user pass : String) (r : PreparedRequest)
    (hp : doRequestPrepare cfg urlOk url mode user pass = .ok r) :
    (cfg.Timeout ≤ 0 → r.timeoutSeconds = 10) ∧
      (0 < cfg.Timeout → r.timeoutSeconds = cfg.Timeout) ∧ 0 < r.timeoutSeconds := by
  obtain ⟨-, -, -, -, ht, -⟩ := prepare_ok_fields cfg urlOk url mode user pass r hp
  refine ⟨fun h => ?_, fun h => ?_, ?_⟩
  · rw [ht]
    unfold resolveTimeout
    rw [if_pos h]
  · rw [ht]
    unfold resolveTimeout
    rw [if_neg (by omega)]
  · rw [ht]
    exact resolveTimeout_pos cfg.Timeout

/-- C7 witness: with a snapshot timeout of 0 the prepared request uses 10
seconds, at a fully concrete input. -/
theorem c7_nonpositive_timeout_defaults_witness :
    (0 : Int) ≤ 0 ∧
      PreparedRequest.timeoutSeconds
        { method := "GET", url := "http://h",
          headers := [("User-Agent", "Zabbix-Plugin-Segi9/1.0"), ("Accept", "*/*")],
          basicAuth := none, timeoutSeconds := 10, skipVerify := false } = 10 :=
  ⟨by decide,
    (c7_nonpositive_timeout_defaults { Timeout := 0, SkipVerify := false } true
      "http://h" "none" "" "" _ rfl).1 (by decide)⟩

/-- C8: every prepared outgoing request is a GET carrying the fixed
identifying User-Agent and an Accept wildcard header, with the resolved
timeout and the TLS-verification flag of the snapshot. -/
theorem c8_request_shape (cfg : Config) (urlOk : Bool) (url mode user pass : String)
    (r : PreparedRequest) (hp : doRequestPrepare cfg urlOk url mode user pass = .ok r) :
    r.method = "GET" ∧ headerGet r.headers "User-Agent" = some "Zabbix-Plugin-Segi9/1.0" ∧
      headerGet r.headers "Accept" = some "*/*" ∧
      r.timeoutSeconds = resolveTimeout cfg.Timeout ∧ r.skipVerify = cfg.SkipVerify := by
  obtain ⟨h1, -, h3, h4, h5, h6⟩ := prepare_ok_fields cfg urlOk url mode user pass r hp
  exact ⟨h1, h3, h4, h5, h6⟩

/-- C8 witness: the concrete prepared request for a plain unauthenticated
call shows the GET method and both fixed headers, with TLS verification
skipped as configured. -/
theorem c8_request_shape_witness :
    PreparedRequest.method
        { method := "GET", url := "http://h",
          headers := [("User-Agent", "Zabbix-Plugin-Segi9/1.0"), ("Accept", "*/*")],
          basicAuth := none, timeoutSeconds := 7, skipVerify := true } = "GET" ∧
      headerGet [("User-Agent", "Zabbix-Plugin-Segi9/1.0"), ("Accept", "*/*")] "User-Agent"
        = some "Zabbix-Plugin-Segi9/1.0" :=
  ⟨(c8_request_shape { Timeout := 7, SkipVerify := true } true
      "http://h" "none" "" "" _ rfl).1,
    (c8_request_shape { Timeout := 7, SkipVerify := true } true
      "http://h" "none" "" "" _ rfl).2.1⟩

/-- C9: for every basic-mode request that gets prepared, the Basic-auth
credentials attached are exactly the given principal and secret, also when
the secret is empty. -/
theorem c9_basic_auth_attached (cfg : Config) (urlOk : Bool) (url mode user pass : String)
    (r : PreparedRequest) (hmode : toLowerGo mode = "basic")
    (hp : doRequestPrepare cfg urlOk url mode user pass = .ok r) :
    r.basicAuth = some (user, pass) := by
  simp only [doRequestPrepare, hmode] at hp
  split_ifs at hp
  all_goals
    first
      | exact Except.noConfusion hp
      | (injection hp with hr; subst hr; rfl)

/-- C9 witness: mode "Basic" with an empty password still attaches the
credentials ("admin", ""). -/
theorem c9_basic_auth_attached_witness :
    toLowerGo "Basic" = "basic" ∧
      PreparedRequest.basicAuth
        { method := "GET", url := "http://h",
          headers := [("User-Agent", "Zabbix-Plugin-Segi9/1.0"), ("Accept", "*/*")],
          basicAuth := some ("admin", ""), timeoutSeconds := 10, skipVerify := false }
        = some ("admin", "") :=
  ⟨by decide,
    c9_basic_auth_attached defaultConfig true "http://h" "Basic" "admin" "" _ (by decide) rfl⟩

/-- C6: whatever status code a reachable server answers with, when the body
is read successfully doRequest returns it verbatim as the success value. -/
theorem c6_any_status_is_success (cfg : Config) (urlOk : Bool) (url mode user pass : String)
    (r : PreparedRequest) (status : Nat) (body : String)
    (net : PreparedRequest → NetworkResult)
    (hp : doRequestPrepare cfg urlOk url mode user pass = .ok r)
    (hn : net r = .response status (.ok body)) :
    doRequest cfg urlOk net url mode user pass = .ok body := by
  simp [doRequest, hp, hn]

/-- C6 witness: a 503 answer with body "overloaded" is returned as a
success outcome carrying that body. -/
theorem c6_any_status_is_success_witness :
    doRequest defaultConfig true (fun _ => .response 503 (.ok "overloaded"))
      "http://h" "none" "" "" = .ok "overloaded" :=
  c6_any_status_is_success defaultConfig true "http://h" "none" "" ""
    { method := "GET", url := "http://h",
      headers := [("User-Agent", "Zabbix-Plugin-Segi9/1.0"), ("Accept", "*/*")],
      basicAuth := none, timeoutSeconds := 10, skipVerify := false }
    503 "overloaded" (fun _ => .response 503 (.ok "overloaded")) rfl rfl

/-- preparation of a bearer-mode request, computed: the empty-token guard,
the Authorization header and the irrelevance of the password argument. -/
theorem prepare_bearer_eq (cfg : Config) (urlOk : Bool) (url mode user pass : String)
    (hmode : toLowerGo mode = "bearer") :
    doRequestPrepare cfg urlOk url mode user pass =
      if urlOk then
        if user = "" then .error bearerTokenErr
        else
          .ok { method := "GET", url := url,
                headers := headerSet
                  (headerSet (headerSet [] "User-Agent" "Zabbix-Plugin-Segi9/1.0")
                    "Accept" "*/*") "Authorization" ("Bearer " ++ user),
                basicAuth := none, timeoutSeconds := resolveTimeout cfg.Timeout,
                skipVerify := cfg.SkipVerify }
      else .error (buildRequestErr url) := by
  simp only [doRequestPrepare, hmode]
  rfl

/-- C2: in bearer mode an empty principal is rejected before the network is
ever consulted, while a non-empty principal yields an outgoing request that
carries the header Authorization Bearer-token and no Basic credentials, the
secret being ignored entirely. -/
theorem c2_bearer_mode (cfg : Config) (urlOk : Bool) (url mode user pass : String)
    (hmode : toLowerGo mode = "bearer") :
    (user = "" →
      (∀ net net', doRequest cfg urlOk net url mode user pass
          = doRequest cfg urlOk net' url mode user pass) ∧
      (∀ net, isSuccess (doRequest cfg urlOk net url mode user pass) = false) ∧
      (urlOk = true → ∀ net, doRequest cfg urlOk net url mode user pass
          = .error bearerTokenErr)) ∧
    (∀ r, doRequestPrepare cfg urlOk url mode user pass = .ok r →
      headerGet r.headers "Authorization" = some ("Bearer " ++ user) ∧ r.basicAuth = none) ∧
    (∀ pass2, doRequestPrepare cfg urlOk url mode user pass
        = doRequestPrepare cfg urlOk url mode user pass2) := by
  have hpe := prepare_bearer_eq cfg urlOk url mode user pass hmode
  refine ⟨fun hu => ?_, fun r hr => ?_, fun pass2 => ?_⟩
  · subst hu
    have herr : doRequestPrepare cfg urlOk url mode "" pass =
        .error (if urlOk then bearerTokenErr else buildRequestErr url) := by
      rw [hpe]
      cases urlOk <;> simp
    refine ⟨fun net net' => ?_, fun net => ?_, fun hok net => ?_⟩
    · rw [doRequest_of_prepare_error cfg urlOk url mode "" pass _ herr net,
        doRequest_of_prepare_error cfg urlOk url mode "" pass _ herr net']
    · rw [doRequest_of_prepare_error cfg urlOk url mode "" pass _ herr net]
      rfl
    · subst hok
      exact doRequest_of_prepare_error cfg true url mode "" pass _ (by simpa using herr) net
  · rw [hpe] at hr
    cases urlOk with
    | false =>
      rw [if_neg (by decide)] at hr
      exact Except.noConfusion hr
    | true =>
      rw [if_pos rfl] at hr
      by_cases hu : user = ""
      · rw [if_pos hu] at hr
        exact Except.noConfusion hr
      · rw [if_neg hu] at hr
        injection hr with hr2
        subst hr2
        exact ⟨rfl, rfl⟩
  · rw [hpe, prepare_bearer_eq cfg urlOk url mode user pass2 hmode]

/-- C2 witness: mode "Bearer" with an empty token is rejected with the
token-required error on a dead network and on a live one alike, and with
token "tok123" the prepared request carries Authorization Bearer tok123. -/
theorem c2_bearer_mode_witness :
    isSuccess (doRequest defaultConfig true netOk "http://h" "Bearer" "" "p") = false ∧
      doRequest defaultConfig true netDown "http://h" "Bearer" "" "p"
          = .error bearerTokenErr ∧
      headerGet [("User-Agent", "Zabbix-Plugin-Segi9/1.0"), ("Accept", "*/*"),
          ("Authorization", "Bearer tok123")] "Authorization"
        = some ("Bearer " ++ "tok123") := by
  have h0 := c2_bearer_mode defaultConfig true "http://h" "Bearer" "" "p" (by decide)
  have h1 := c2_bearer_mode defaultConfig true "http://h" "Bearer" "tok123" "" (by decide)
  refine ⟨(h0.1 rfl).2.1 netOk, (h0.1 rfl).2.2 rfl netDown, ?_⟩
  exact (h1.2.1
    { method := "GET", url := "http://h",
      headers := [("User-Agent", "Zabbix-Plugin-Segi9/1.0"), ("Accept", "*/*"),
        ("Authorization", "Bearer tok123")],
      basicAuth := none, timeoutSeconds := 10, skipVerify := false } rfl).1

/-- C5: a missing url parameter, or one that trims to the empty string, makes
Export fail with the url-required error whatever the network would answer. -/
theorem c5_empty_url_rejected (cfg : Config) (urlOk : Bool)
    (net : PreparedRequest → NetworkResult) (params : List String)
    (h : params.length = 0 ∨ trimSpaceGo (params.getD 0 "") = "") :
    Export cfg urlOk net exportKey params = .error urlRequiredErr := by
  unfold Export
  rw [if_neg (fun hc => hc rfl), if_pos h]

/-- C5 witness: a whitespace-only url parameter is rejected with the
url-required error. -/
theorem c5_empty_url_rejected_witness :
    (([" \t "] : List String).length = 0 ∨ trimSpaceGo ([" \t "].getD 0 "") = "") ∧
      Export defaultConfig true netOk exportKey [" \t "] = .error urlRequiredErr :=
  ⟨Or.inr (by decide),
    c5_empty_url_rejected defaultConfig true netOk [" \t "] (Or.inr (by decide))⟩

/-- C10: any key other than segi9.http is refused with an error naming it,
independently of the parameters, the configuration and the network. -/
theorem c10_only_segi9_http_key (cfg : Config) (urlOk : Bool)
    (net : PreparedRequest → NetworkResult) (key : String) (params : List String)
    (h : key ≠ exportKey) :
    Export cfg urlOk net key params = .error (unsupportedKeyErr key) := by
  unfold Export
  rw [if_pos h]

/-- C10 witness: the key agent.ping is refused. -/
theorem c10_only_segi9_http_key_witness :
    "agent.ping" ≠ exportKey ∧
      Export defaultConfig true netOk "agent.ping" []
        = .error (unsupportedKeyErr "agent.ping") :=
  ⟨by decide, c10_only_segi9_http_key defaultConfig true netOk "agent.ping" [] (by decide)⟩

/-- C4: an auth mode whose trimmed, lower-cased form is none of the three
recognized values makes Export fail without consulting the network, and —
whenever the request would otherwise have been built — with the
unsupported-auth error naming the offending (trimmed) value. -/
theorem c4_unsupported_auth_mode (cfg : Config) (urlOk : Bool)
    (net net' : PreparedRequest → NetworkResult) (params : List String)
    (hmode : toLowerGo (trimSpaceGo (params.getD 1 "")) ∉
      (["", "none", "basic", "bearer"] : List String)) :
    Export cfg urlOk net exportKey params = Export cfg urlOk net' exportKey params ∧
      isSuccess (Export cfg urlOk net exportKey params) = false ∧
      (trimSpaceGo (params.getD 0 "") ≠ "" → urlOk = true →
        Export cfg urlOk net exportKey params
          = .error (unsupportedAuthErr (trimSpaceGo (params.getD 1 "")))) := by
  have ht1 : trimSpaceGo (params.getD 1 "") ≠ "" := by
    intro he
    apply hmode
    rw [he]
    decide
  have h1 : toLowerGo (trimSpaceGo (params.getD 1 "")) ≠ "basic" := by
    intro he
    apply hmode
    rw [he]
    decide
  have h2 : toLowerGo (trimSpaceGo (params.getD 1 "")) ≠ "bearer" := by
    intro he
    apply hmode
    rw [he]
    decide
  have h3 : toLowerGo (trimSpaceGo (params.getD 1 "")) ≠ "none" := by
    intro he
    apply hmode
    rw [he]
    decide
  have h4 : toLowerGo (trimSpaceGo (params.getD 1 "")) ≠ "" := by
    intro he
    apply hmode
    rw [he]
    decide
  by_cases hurl : params.length = 0 ∨ trimSpaceGo (params.getD 0 "") = ""
  · have hE : ∀ nt, Export cfg urlOk nt exportKey params = .error urlRequiredErr := by
      intro nt
      unfold Export
      rw [if_neg (fun hc => hc rfl), if_pos hurl]
    refine ⟨by rw [hE net, hE net'], by rw [hE net]; rfl, fun hu _ => ?_⟩
    exfalso
    rcases hurl with h0 | h0
    · have hnil : params = [] := List.length_eq_zero.mp h0
      rw [hnil] at ht1
      exact ht1 (by decide)
    · exact hu h0
  · push_neg at hurl
    have hlen : 1 < params.length := by
      rcases params with _ | ⟨a, _ | ⟨b, t⟩⟩
      · exact absurd rfl hurl.1
      · exact absurd rfl ht1
      · simp only [List.length_cons]
        omega
    have hExp : ∀ nt, Export cfg urlOk nt exportKey params =
        doRequest cfg urlOk nt (trimSpaceGo (params.getD 0 ""))
          (trimSpaceGo (params.getD 1 "")) (params.getD 2 "") (params.getD 3 "") := by
      intro nt
      simp only [Export]
      rw [if_neg (fun hc => hc rfl), if_neg (not_or.mpr ⟨hurl.1, hurl.2⟩),
        if_pos ⟨hlen, ht1⟩]
    have hprep := doRequest_reject_mode cfg urlOk (trimSpaceGo (params.getD 0 ""))
      (trimSpaceGo (params.getD 1 "")) (params.getD 2 "") (params.getD 3 "") h1 h2 h3 h4
    cases urlOk with
    | false =>
      rw [if_neg (by decide)] at hprep
      have herr := doRequest_of_prepare_error cfg false (trimSpaceGo (params.getD 0 ""))
        (trimSpaceGo (params.getD 1 "")) (params.getD 2 "") (params.getD 3 "") _ hprep
      refine ⟨by rw [hExp net, hExp net', herr net, herr net'],
        by rw [hExp net, herr net]; rfl, fun _ hok => absurd hok (by decide)⟩
    | true =>
      rw [if_pos rfl] at hprep
      have herr := doRequest_of_prepare_error cfg true (trimSpaceGo (params.getD 0 ""))
        (trimSpaceGo (params.getD 1 "")) (params.getD 2 "") (params.getD 3 "") _ hprep
      refine ⟨by rw [hExp net, hExp net', herr net, herr net'],
        by rw [hExp net, herr net]; rfl, fun _ _ => by rw [hExp net, herr net]⟩

/-- C4 witness: the mode " Digest " (case and surrounding whitespace
included) is refused with the unsupported-auth error naming "Digest", on a
live and a dead network alike. -/
theorem c4_unsupported_auth_mode_witness :
    toLowerGo (trimSpaceGo ((["http://h", " Digest "] : List String).getD 1 "")) ∉
        (["", "none", "basic", "bearer"] : List String) ∧
      Export defaultConfig true netOk exportKey ["http://h", " Digest "]
          = Export defaultConfig true netDown exportKey ["http://h", " Digest "] ∧
      Export defaultConfig true netOk exportKey ["http://h", " Digest "]
          = .error (unsupportedAuthErr "Digest") := by
  have h := c4_unsupported_auth_mode defaultConfig true netOk netDown
    ["http://h", " Digest "] (by decide)
  exact ⟨by decide, h.1, h.2.2 (by decide) rfl⟩

end Segi9
